import Mathlib

/-!
Shallow embedding of the pyextron command-execution core
(src/pyextron/init module): error classification, the
authentication handshake, and the per-command request/response
cycle with its failure handling.

The raw transport (pytelnetdevice) is an external collaborator;
its line primitives are modelled from the design documents
LineConnection contract.
-/

set_option autoImplicit false

namespace PyExtron

/-- Modelled from the spec: LineConnection.read_until works over the raw
byte stream; this helper scans a character list for the first occurrence of
a delimiter, returning the text before it and the remainder after it. -/
def splitOnDelim (delim : List Char) : List Char → Option (List Char × List Char)
  | [] => none
  | c :: rest =>
    if List.isPrefixOf delim (c :: rest) then
      some ([], List.drop delim.length (c :: rest))
    else
      match splitOnDelim delim rest with
      | some (pre, post) => some (c :: pre, post)
      | none => none

/-- Modelled from the spec: LineConnection.read_until (pytelnetdevice, not in
src/) reads all bytes up to and including the delimiter, returning the text
with the delimiter excluded and leaving the rest of the stream; none when the
stream ends without producing the delimiter. -/
def read_until (delim stream : String) : Option (String × String) :=
  match splitOnDelim delim.data stream.data with
  | some (pre, post) => some (String.mk pre, String.mk post)
  | none => none

/-- Modelled from the spec: LineConnection.read_exact (reader.readexactly in
the source, pytelnetdevice collaborator) reads exactly n bytes, failing when
fewer are available. -/
def read_exact (n : Nat) (stream : String) : Option (String × String) :=
  if n ≤ stream.data.length then
    some (String.mk (stream.data.take n), String.mk (stream.data.drop n))
  else none

/-- Characters removed by the Python str.strip() default whitespace set
(ASCII range, which is all the device protocol uses). -/
def pyIsSpace (c : Char) : Bool :=
  c = ' ' || c = '\t' || c = '\n' || c = '\r' || c = '\x0b' || c = '\x0c'

/-- Drop leading whitespace characters. -/
def dropSpaces : List Char → List Char
  | [] => []
  | c :: rest => if pyIsSpace c then dropSpaces rest else c :: rest

/-- Python str.strip(): remove leading and trailing whitespace. -/
def pyStrip (s : String) : String :=
  String.mk (dropSpaces ((dropSpaces s.data.reverse).reverse))

/-- The compiled pattern re.compile("E[0-9]{2}") used via .match in the
source: matching is anchored at position zero, requiring the literal
character E followed by exactly two decimal digits; anything may follow. -/
def error_regexp (s : String) : Bool :=
  match s.data with
  | c :: d₁ :: d₂ :: _ => c == 'E' && d₁.isDigit && d₂.isDigit
  | _ => false

/-- is_error_response from the source: error_regexp.match(response) is not None. -/
def is_error_response (response : String) : Bool :=
  error_regexp response

/-- Outcome of attempt_login. success: the handshake completed; authError:
AuthenticationError was raised on a detected re-prompt; blocked: a read could
not complete on the scripted stream, so the coroutine never finishes and the
callers wait_for timeout fires. -/
inductive LoginResult
  | success
  | authError
  | blocked
  deriving DecidableEq

/-- attempt_login from the source, driven by the full byte stream the device
sends over the life of the handshake. Returns the list of strings written to
the connection together with the outcome. Steps, in source order: read until
the literal "Password:"; write the password followed by a single newline and
drain; read exactly the next 10 bytes, decode and strip them, raising
AuthenticationError when the stripped text equals "Password"; otherwise read
away the "Login Administrator" line up to the next newline. -/
def attempt_login (password stream : String) : List String × LoginResult :=
  match read_until "Password:" stream with
  | none => ([], .blocked)
  | some (_, rest₁) =>
    match read_exact 10 rest₁ with
    | none => ([password ++ "\n"], .blocked)
    | some (resp, rest₂) =>
      if pyStrip resp = "Password" then
        ([password ++ "\n"], .authError)
      else
        match read_until "\n" rest₂ with
        | none => ([password ++ "\n"], .blocked)
        | some _ => ([password ++ "\n"], .success)

/-- Failure reported by the connect sequence: the AuthenticationError raised
by attempt_login, or the asyncio TimeoutError raised by the wait_for wrapper
in after_connect. -/
inductive ConnectError
  | authError
  | timeoutError
  deriving DecidableEq

/-- Result of the connect sequence: authenticated, or failed with a
ConnectError. -/
inductive ConnectResult
  | ok
  | error (e : ConnectError)
  deriving DecidableEq

/-- after_connect from the source: attempt_login wrapped in
asyncio.wait_for with the configured timeout. In this deterministic model
the wrapped coroutine times out exactly when one of its reads blocks. -/
def after_connect (password stream : String) : List String × ConnectResult :=
  match attempt_login password stream with
  | (w, .blocked) => (w, ConnectResult.error ConnectError.timeoutError)
  | (w, .authError) => (w, ConnectResult.error ConnectError.authError)
  | (w, .success) => (w, ConnectResult.ok)

/-- The session states of the design: Disconnected (no connection handle),
Connected (transport open, not yet authenticated), Ready (authenticated). -/
inductive SessionState
  | disconnected
  | connected
  | ready
  deriving DecidableEq

/-- Modelled from the spec: disconnect (pytelnetdevice, not in src/) clears
the connection handle, returning the session to Disconnected; idempotent. -/
def disconnect (_s : SessionState) : SessionState :=
  SessionState.disconnected

/-- Modelled from the spec: the connect sequence (pytelnetdevice
TelnetDevice.connect, not in src/) opens the transport and runs
after_connect; on success the session is Ready; on any failure the transport
is forcibly closed and the session returns to Disconnected, surfacing the
error to the caller. -/
def connect (password stream : String) : SessionState × ConnectResult :=
  match after_connect password stream with
  | (_, ConnectResult.ok) => (SessionState.ready, ConnectResult.ok)
  | (_, ConnectResult.error e) => (SessionState.disconnected, ConnectResult.error e)

/-- Behaviour of the device on one run_command exchange. replies: the device
sends bytes and then hangs (no close); closes: the device sends bytes and
then ends the stream; silent: nothing arrives before the timeout; resets:
the transport fails with ConnectionResetError or BrokenPipeError. -/
inductive DeviceBehavior
  | replies (bytes : String)
  | closes (bytes : String)
  | silent
  | resets
  deriving DecidableEq

/-- The failures run_command can raise: the RuntimeError for a missing
response, ResponseError carrying the device error code, the RuntimeError
raised after a timeout, and the RuntimeError raised after a reset. -/
inductive CmdError
  | noResponse
  | responseError (code : String)
  | timedOut
  | connectionReset
  deriving DecidableEq

/-- Result of run_command: the trimmed response text, or a CmdError. -/
inductive CmdResult
  | ok (response : String)
  | error (e : CmdError)
  deriving DecidableEq

/-- Outcome of the awaited body of run_command: the value returned by
run_command_internal, or the exception injected by the runtime
(TimeoutError from wait_for, or a reset/broken pipe during the exchange). -/
inductive IOOutcome (α : Type)
  | ok (a : α)
  | timeout
  | reset
  deriving DecidableEq

/-- run_command_internal from the source: write the command followed by a
single newline, drain, then read one line delimited by CR LF; returns the
line, or none when the stream ended without producing one. A device that
hangs without ever sending the delimiter leaves the coroutine suspended, so
the wait_for in run_command times out. -/
def run_command_internal (command : String) (dev : DeviceBehavior) :
    List String × IOOutcome (Option String) :=
  ([command ++ "\n"],
    match dev with
    | .replies bytes =>
      match read_until "\r\n" bytes with
      | some (raw, _) => IOOutcome.ok (some raw)
      | none => IOOutcome.timeout
    | .closes bytes =>
      match read_until "\r\n" bytes with
      | some (raw, _) => IOOutcome.ok (some raw)
      | none => IOOutcome.ok none
    | .silent => IOOutcome.timeout
    | .resets => IOOutcome.reset)

/-- run_command from the source: await run_command_internal under the
configured timeout; if the response is None raise the no-response
RuntimeError; strip the response; if it is classified as an error raise
ResponseError; otherwise return it. On TimeoutError: disconnect, then raise
the timed-out RuntimeError. On ConnectionResetError or BrokenPipeError:
disconnect, then raise the reset RuntimeError. Returns the session state
after the call, the writes performed, and the result. -/
def run_command (st : SessionState) (command : String) (dev : DeviceBehavior) :
    SessionState × List String × CmdResult :=
  match run_command_internal command dev with
  | (w, IOOutcome.ok none) => (st, w, CmdResult.error CmdError.noResponse)
  | (w, IOOutcome.ok (some raw)) =>
    let response := pyStrip raw
    if is_error_response response then
      (st, w, CmdResult.error (CmdError.responseError response))
    else
      (st, w, CmdResult.ok response)
  | (w, IOOutcome.timeout) => (disconnect st, w, CmdResult.error CmdError.timedOut)
  | (w, IOOutcome.reset) => (disconnect st, w, CmdResult.error CmdError.connectionReset)

end PyExtron

namespace PyExtron

/-- C4: is_error_response returns true exactly on strings that begin, at
position zero, with the literal character E followed by two decimal digits;
trailing characters after the digits are permitted, so "E01extra" is an
error, while "", "OK", "123" and "Err01" are not. -/
theorem is_error_response_spec :
    (∀ s : String, is_error_response s = true ↔
      ∃ d₁ d₂ rest, s.data = 'E' :: d₁ :: d₂ :: rest ∧
        d₁.isDigit = true ∧ d₂.isDigit = true) ∧
    is_error_response "E01extra" = true ∧
    is_error_response "" = false ∧
    is_error_response "OK" = false ∧
    is_error_response "123" = false ∧
    is_error_response "Err01" = false := by
  refine ⟨?_, by decide, by decide, by decide, by decide, by decide⟩
  intro s
  unfold is_error_response error_regexp
  constructor
  · intro h
    match hd : s.data with
    | [] => rw [hd] at h; simp at h
    | [c] => rw [hd] at h; simp at h
    | [c, d] => rw [hd] at h; simp at h
    | c :: d₁ :: d₂ :: rest =>
      rw [hd] at h
      simp only [Bool.and_eq_true, beq_iff_eq] at h
      exact ⟨d₁, d₂, rest, by simp [h.1.1] at hd ⊢, h.1.2, h.2⟩
  · rintro ⟨d₁, d₂, rest, hd, h1, h2⟩
    rw [hd]
    simp [h1, h2]

/-- Concrete instantiation of the C4 characterization on the string "E23". -/
theorem is_error_response_spec_witness : is_error_response "E23" = true :=
  (is_error_response_spec.1 "E23").mpr ⟨'2', '3', [], by decide, by decide, by decide⟩

/-- C1: on a successful exchange, run_command writes the command followed by
a single newline, reads one CR LF delimited line, and returns that line with
surrounding whitespace trimmed, leaving the session state untouched. -/
theorem run_command_success (st : SessionState) (c bytes raw rest : String)
    (h₁ : read_until "\r\n" bytes = some (raw, rest))
    (h₂ : is_error_response (pyStrip raw) = false) :
    run_command st c (DeviceBehavior.replies bytes) =
      (st, [c ++ "\n"], CmdResult.ok (pyStrip raw)) := by
  simp [run_command, run_command_internal, h₁, h₂]

/-- C1 witnessed: sending "1I" to a device that replies with the bytes
SSP-001 CR LF returns exactly "SSP-001". -/
theorem run_command_success_witness :
    pyStrip "SSP-001" = "SSP-001" ∧
    run_command SessionState.ready "1I" (DeviceBehavior.replies "SSP-001\r\n") =
      (SessionState.ready, ["1I\n"], CmdResult.ok "SSP-001") := by
  have h := run_command_success SessionState.ready "1I" "SSP-001\r\n" "SSP-001" ""
    (by decide) (by decide)
  exact ⟨by decide, by rw [h]; decide⟩

/-- C2: whenever run_command fails with the timeout failure or the
connection-reset failure, the session has been disconnected as a side effect
before the failure is reported. -/
theorem run_command_fatal_disconnects (st : SessionState) (c : String)
    (dev : DeviceBehavior)
    (h : (run_command st c dev).2.2 = CmdResult.error CmdError.timedOut ∨
      (run_command st c dev).2.2 = CmdResult.error CmdError.connectionReset) :
    (run_command st c dev).1 = SessionState.disconnected := by
  cases dev with
  | replies bytes =>
    cases hr : read_until "\r\n" bytes with
    | none => simp [run_command, run_command_internal, hr, disconnect]
    | some p =>
      obtain ⟨raw, rest⟩ := p
      by_cases he : is_error_response (pyStrip raw) = true
      · simp [run_command, run_command_internal, hr, he] at h
      · simp [run_command, run_command_internal, hr, he] at h
  | closes bytes =>
    cases hr : read_until "\r\n" bytes with
    | none => simp [run_command, run_command_internal, hr] at h
    | some p =>
      obtain ⟨raw, rest⟩ := p
      by_cases he : is_error_response (pyStrip raw) = true
      · simp [run_command, run_command_internal, hr, he] at h
      · simp [run_command, run_command_internal, hr, he] at h
  | silent => simp [run_command, run_command_internal, disconnect]
  | resets => simp [run_command, run_command_internal, disconnect]

/-- C2 witnessed: a device that never replies makes run_command time out and
leaves the session Disconnected. -/
theorem run_command_fatal_disconnects_witness :
    (run_command SessionState.ready "1I" DeviceBehavior.silent).1 =
      SessionState.disconnected :=
  run_command_fatal_disconnects SessionState.ready "1I" DeviceBehavior.silent
    (Or.inl (by decide))

/-- C3: when run_command fails with ResponseError, the carried code is a
recognized device error code and the session state is unchanged: no
disconnect occurs on this branch. -/
theorem run_command_response_error_keeps_connection (st : SessionState)
    (c code : String) (dev : DeviceBehavior)
    (h : (run_command st c dev).2.2 =
      CmdResult.error (CmdError.responseError code)) :
    (run_command st c dev).1 = st ∧ is_error_response code = true := by
  cases dev with
  | replies bytes =>
    cases hr : read_until "\r\n" bytes with
    | none => simp [run_command, run_command_internal, hr] at h
    | some p =>
      obtain ⟨raw, rest⟩ := p
      by_cases he : is_error_response (pyStrip raw) = true
      · simp [run_command, run_command_internal, hr, he] at h ⊢
        rw [← h]; exact he
      · simp [run_command, run_command_internal, hr, he] at h
  | closes bytes =>
    cases hr : read_until "\r\n" bytes with
    | none => simp [run_command, run_command_internal, hr] at h
    | some p =>
      obtain ⟨raw, rest⟩ := p
      by_cases he : is_error_response (pyStrip raw) = true
      · simp [run_command, run_command_internal, hr, he] at h ⊢
        rw [← h]; exact he
      · simp [run_command, run_command_internal, hr, he] at h
  | silent => simp [run_command, run_command_internal] at h
  | resets => simp [run_command, run_command_internal] at h

/-- C3 witnessed: a device replying E01 CR LF yields ResponseError "E01"
while the session stays Ready. -/
theorem run_command_response_error_keeps_connection_witness :
    (run_command SessionState.ready "1I" (DeviceBehavior.replies "E01\r\n")).1 =
      SessionState.ready ∧ is_error_response "E01" = true :=
  run_command_response_error_keeps_connection SessionState.ready "1I" "E01"
    (DeviceBehavior.replies "E01\r\n") (by decide)

/-- C7: when the line read returns nothing because the stream ended,
run_command fails with the no-response error, which is distinct from the
timeout failure and from every device error code. -/
theorem run_command_no_response (st : SessionState) (c bytes : String)
    (h : read_until "\r\n" bytes = none) :
    run_command st c (DeviceBehavior.closes bytes) =
      (st, [c ++ "\n"], CmdResult.error CmdError.noResponse) ∧
    CmdError.noResponse ≠ CmdError.timedOut ∧
    (∀ code : String, CmdError.noResponse ≠ CmdError.responseError code) := by
  refine ⟨by simp [run_command, run_command_internal, h], by decide, ?_⟩
  intro code hcode
  exact CmdError.noConfusion hcode

/-- C7 witnessed: a stream that ends with no data produces the no-response
failure and leaves the state untouched. -/
theorem run_command_no_response_witness :
    run_command SessionState.ready "1I" (DeviceBehavior.closes "") =
      (SessionState.ready, ["1I\n"], CmdResult.error CmdError.noResponse) :=
  (run_command_no_response SessionState.ready "1I" "" (by decide)).1

/-- C10: on the no-response branch, on the ResponseError branch, and on the
success branch, run_command leaves the session state unchanged: no
disconnect is performed there. -/
theorem run_command_nonfatal_frame (st : SessionState) (c : String)
    (dev : DeviceBehavior) :
    ((run_command st c dev).2.2 = CmdResult.error CmdError.noResponse →
      (run_command st c dev).1 = st) ∧
    (∀ code : String,
      (run_command st c dev).2.2 = CmdResult.error (CmdError.responseError code) →
      (run_command st c dev).1 = st) ∧
    (∀ r : String, (run_command st c dev).2.2 = CmdResult.ok r →
      (run_command st c dev).1 = st) := by
  cases dev with
  | replies bytes =>
    cases hr : read_until "\r\n" bytes with
    | none => simp [run_command, run_command_internal, hr]
    | some p =>
      obtain ⟨raw, rest⟩ := p
      by_cases he : is_error_response (pyStrip raw) = true
      · simp [run_command, run_command_internal, hr, he]
      · simp [run_command, run_command_internal, hr, he]
  | closes bytes =>
    cases hr : read_until "\r\n" bytes with
    | none => simp [run_command, run_command_internal, hr]
    | some p =>
      obtain ⟨raw, rest⟩ := p
      by_cases he : is_error_response (pyStrip raw) = true
      · simp [run_command, run_command_internal, hr, he]
      · simp [run_command, run_command_internal, hr, he]
  | silent => simp [run_command, run_command_internal]
  | resets => simp [run_command, run_command_internal]

/-- C10 witnessed: after the no-response failure the session state is the
Ready state it started in. -/
theorem run_command_nonfatal_frame_witness :
    (run_command SessionState.ready "2I" (DeviceBehavior.closes "")).1 =
      SessionState.ready :=
  (run_command_nonfatal_frame SessionState.ready "2I" (DeviceBehavior.closes "")).1
    (by decide)

/-- C5: the handshake performs exactly these steps in order: read until the
literal "Password:" appears; write the credential followed by a single
newline; read exactly the next 10 bytes, strip them, and fail with
AuthenticationError when the stripped text equals "Password"; otherwise read
until the next newline, discarding the banner, and succeed. -/
theorem attempt_login_steps (password stream pre rest₁ resp rest₂ : String)
    (h₁ : read_until "Password:" stream = some (pre, rest₁))
    (h₂ : read_exact 10 rest₁ = some (resp, rest₂)) :
    (attempt_login password stream).1 = [password ++ "\n"] ∧
    (pyStrip resp = "Password" →
      (attempt_login password stream).2 = LoginResult.authError) ∧
    (pyStrip resp ≠ "Password" →
      ∀ banner rest₃, read_until "\n" rest₂ = some (banner, rest₃) →
        (attempt_login password stream).2 = LoginResult.success) := by
  by_cases hp : pyStrip resp = "Password"
  · simp [attempt_login, h₁, h₂, hp]
  · refine ⟨?_, fun hc => absurd hc hp, ?_⟩
    · cases h₃ : read_until "\n" rest₂ <;>
        simp [attempt_login, h₁, h₂, hp, h₃]
    · intro hne banner rest₃ h₃
      simp [attempt_login, h₁, h₂, hp, h₃]

/-- C5 witnessed: a device that sends the prompt, then a 10-byte block not
stripping to "Password", then the banner line, makes the handshake write the
credential once and succeed. -/
theorem attempt_login_steps_witness :
    (attempt_login "pw" "Password: Login Administrator\r\n").1 = ["pw" ++ "\n"] ∧
    (attempt_login "pw" "Password: Login Administrator\r\n").2 =
      LoginResult.success := by
  have h := attempt_login_steps "pw" "Password: Login Administrator\r\n" ""
    " Login Administrator\r\n" " Login Adm" "inistrator\r\n" (by decide) (by decide)
  exact ⟨h.1, h.2.2 (by decide) "inistrator\r" "" (by decide)⟩

/-- C8: the credential is submitted at most once per connection: the
handshake either writes nothing or writes the credential plus newline a
single time, and on a detected re-prompt it fails having written it exactly
once, never a second time. -/
theorem attempt_login_single_write (password stream : String) :
    ((attempt_login password stream).1 = [] ∨
      (attempt_login password stream).1 = [password ++ "\n"]) ∧
    ((attempt_login password stream).2 = LoginResult.authError →
      (attempt_login password stream).1 = [password ++ "\n"]) := by
  cases h₁ : read_until "Password:" stream with
  | none => simp [attempt_login, h₁]
  | some p =>
    obtain ⟨pre, rest₁⟩ := p
    cases h₂ : read_exact 10 rest₁ with
    | none => simp [attempt_login, h₁, h₂]
    | some q =>
      obtain ⟨resp, rest₂⟩ := q
      by_cases hp : pyStrip resp = "Password"
      · simp [attempt_login, h₁, h₂, hp]
      · cases h₃ : read_until "\n" rest₂ <;>
          simp [attempt_login, h₁, h₂, hp, h₃]

/-- C8 witnessed: on a re-prompting device the handshake has written the
credential exactly once when it fails. -/
theorem attempt_login_single_write_witness :
    (attempt_login "pw" "Password: Password x").1 = ["pw" ++ "\n"] :=
  (attempt_login_single_write "pw" "Password: Password x").2 (by decide)

/-- C6: when authentication fails, the transport is forcibly closed and the
session returns to Disconnected, and the failure surfaces as
AuthenticationError. -/
theorem connect_auth_failure_disconnects (password stream : String)
    (h : (attempt_login password stream).2 = LoginResult.authError) :
    connect password stream =
      (SessionState.disconnected, ConnectResult.error ConnectError.authError) := by
  rcases ha : attempt_login password stream with ⟨w, r⟩
  rw [ha] at h
  simp only at h
  subst h
  simp [connect, after_connect, ha]

/-- C6 witnessed: a device that re-prompts for the password leaves the
session Disconnected with an AuthenticationError surfaced. -/
theorem connect_auth_failure_disconnects_witness :
    connect "pw" "Password: Password x" =
      (SessionState.disconnected, ConnectResult.error ConnectError.authError) :=
  connect_auth_failure_disconnects "pw" "Password: Password x" (by decide)

/-- C9: a timeout during any step of the handshake surfaces as the timeout
failure, which is not an AuthenticationError, and the session ends
Disconnected. -/
theorem connect_timeout_disconnects (password stream : String)
    (h : (attempt_login password stream).2 = LoginResult.blocked) :
    connect password stream =
      (SessionState.disconnected,
        ConnectResult.error ConnectError.timeoutError) ∧
    ConnectError.timeoutError ≠ ConnectError.authError := by
  refine ⟨?_, by decide⟩
  rcases ha : attempt_login password stream with ⟨w, r⟩
  rw [ha] at h
  simp only at h
  subst h
  simp [connect, after_connect, ha]

/-- C9 witnessed: a device that never sends the password prompt makes the
handshake time out, ending Disconnected with the timeout failure. -/
theorem connect_timeout_disconnects_witness :
    connect "pw" "" =
      (SessionState.disconnected,
        ConnectResult.error ConnectError.timeoutError) :=
  (connect_timeout_disconnects "pw" "" (by decide)).1

end PyExtron
